import Mathlib

/-!
Verification of `examples/python/agent_wallet_integration.py`.

The file embeds the Python client shallowly:

* Python's arbitrary-precision `int` becomes `Int` (`Nat` where the source
  value is a count).
* `str(n)` on an integer becomes `pyStr`, built from the decimal digits of
  the number, most significant first, with a leading `-` for negatives —
  exactly the characters CPython's `int.__str__` produces.
* `int(s)` on a string becomes `pyInt`, which accepts an optional sign
  followed by decimal digits and fails (`none`) otherwise.  (The builtin
  additionally strips whitespace and allows `_` separators; no call site
  in the source ever feeds it such input, so that surface is not modelled.)
* The HTTP transport becomes an oracle: a list of `HttpOutcome`s; issuing a
  request consumes the head of the list.  A server reply is a status code
  plus a JSON value; `timeout` models `requests.Timeout`, `connError` a
  connection-level failure (also what an exhausted oracle yields).
* Exceptions become `Except ClientError`; `response.raise_for_status()`
  raises exactly for statuses in [400, 600).
-/

/-- Decimal digits of `n`, most significant first, prepended to `acc`.
`fuel` bounds the recursion; any `fuel > n` computes all digits.
Mirrors how CPython renders an `int` in base 10. -/
def pyDigitsAux (fuel n : Nat) (acc : List Char) : List Char :=
  match fuel with
  | 0 => acc
  | fuel' + 1 =>
    let d : Char := Char.ofNat (48 + n % 10)
    if n < 10 then d :: acc
    else pyDigitsAux fuel' (n / 10) (d :: acc)

/-- Python `str(n)` for a non-negative integer. -/
def pyStrNat (n : Nat) : String :=
  String.mk (pyDigitsAux (n + 1) n [])

/-- Python `str(n)` for an arbitrary integer: decimal digits with a
leading minus sign for negative numbers. -/
def pyStr : Int → String
  | Int.ofNat m => pyStrNat m
  | Int.negSucc m => "-" ++ pyStrNat (m + 1)

/-- Horner evaluation of a big-endian digit-character list, starting
from accumulator `a`. -/
def parseNatFrom (a : Nat) (cs : List Char) : Nat :=
  cs.foldl (fun x c => x * 10 + (c.toNat - 48)) a

/-- Parse a non-empty all-digit character list as a natural number. -/
def parseDigits (cs : List Char) : Option Nat :=
  match cs with
  | [] => none
  | _ :: _ => if cs.all Char.isDigit then some (parseNatFrom 0 cs) else none

/-- Python `int(s)` on a string: an optional sign followed by one or more
decimal digits; any other shape raises `ValueError`, modelled as `none`. -/
def pyInt (s : String) : Option Int :=
  match s.data with
  | [] => none
  | c :: cs =>
    if c = '-' then (parseDigits cs).map (fun m => -(m : Int))
    else if c = '+' then (parseDigits cs).map (fun m => (m : Int))
    else (parseDigits (c :: cs)).map (fun m => (m : Int))

lemma digit_char_spec (d : Nat) (h : d < 10) :
    (Char.ofNat (48 + d)).toNat = 48 + d ∧ (Char.ofNat (48 + d)).isDigit = true ∧
      Char.ofNat (48 + d) ≠ '-' ∧ Char.ofNat (48 + d) ≠ '+' := by
  interval_cases d <;> exact ⟨by decide, by decide, by decide, by decide⟩

lemma pyDigitsAux_ne_nil (fuel n : Nat) (acc : List Char)
    (h : fuel ≠ 0 ∨ acc ≠ []) : pyDigitsAux fuel n acc ≠ [] := by
  induction fuel generalizing n acc with
  | zero =>
    rcases h with h | h
    · exact absurd rfl h
    · simpa [pyDigitsAux] using h
  | succ f ih =>
    unfold pyDigitsAux
    by_cases hn : n < 10
    · simp [hn]
    · simpa [hn] using ih (n / 10) (Char.ofNat (48 + n % 10) :: acc) (Or.inr (by simp))

lemma pyDigitsAux_all_digits (fuel n : Nat) (acc : List Char)
    (h : acc.all Char.isDigit = true) :
    (pyDigitsAux fuel n acc).all Char.isDigit = true := by
  induction fuel generalizing n acc with
  | zero => simpa [pyDigitsAux] using h
  | succ f ih =>
    have hd := (digit_char_spec (n % 10) (Nat.mod_lt _ (by decide))).2.1
    unfold pyDigitsAux
    by_cases hn : n < 10
    · simp [hn, List.all_cons, hd, h]
    · simp only [hn, if_false]
      exact ih (n / 10) _ (by simp [List.all_cons, hd, h])

lemma pyDigitsAux_parse (fuel n : Nat) (acc : List Char) (h : n < fuel) :
    parseNatFrom 0 (pyDigitsAux fuel n acc) = parseNatFrom n acc := by
  induction fuel generalizing n acc with
  | zero => exact absurd h (Nat.not_lt_zero n)
  | succ f ih =>
    have htd := (digit_char_spec (n % 10) (Nat.mod_lt _ (by decide))).1
    unfold pyDigitsAux
    by_cases hn : n < 10
    · simp only [hn, if_true]
      unfold parseNatFrom
      simp only [List.foldl_cons, htd]
      have : 0 * 10 + (48 + n % 10 - 48) = n := by omega
      rw [this]
    · simp only [hn, if_false]
      have hrec : n / 10 < f := by
        have h1 : n / 10 < n := Nat.div_lt_self (by omega) (by decide)
        omega
      rw [ih (n / 10) _ hrec]
      unfold parseNatFrom
      simp only [List.foldl_cons, htd]
      have : n / 10 * 10 + (48 + n % 10 - 48) = n := by omega
      rw [this]

lemma pyDigitsAux_length (fuel : Nat) : ∀ (n d : Nat) (acc : List Char),
    n < fuel → n < 10 ^ d → 1 ≤ d →
    (pyDigitsAux fuel n acc).length ≤ d + acc.length := by
  induction fuel with
  | zero => intro n d acc h; exact absurd h (Nat.not_lt_zero n)
  | succ f ih =>
    intro n d acc hf hd hd1
    unfold pyDigitsAux
    by_cases hn : n < 10
    · simp only [hn, if_true, List.length_cons]
      omega
    · simp only [hn, if_false]
      match d, hd1 with
      | 1, _ => exact absurd hd (by simpa using hn)
      | d' + 2, _ =>
        have hrec : n / 10 < f := by
          have h1 : n / 10 < n := Nat.div_lt_self (by omega) (by decide)
          omega
        have hpow : n / 10 < 10 ^ (d' + 1) := by
          rw [Nat.div_lt_iff_lt_mul (by decide)]
          calc n < 10 ^ (d' + 2) := hd
            _ = 10 ^ (d' + 1) * 10 := by rw [pow_succ]
        have := ih (n / 10) (d' + 1) (Char.ofNat (48 + n % 10) :: acc) hrec hpow (by omega)
        simp only [List.length_cons] at this ⊢
        omega

lemma isDigit_ne_sign {c : Char} (h : c.isDigit = true) : c ≠ '-' ∧ c ≠ '+' := by
  refine ⟨?_, ?_⟩ <;> rintro rfl <;> exact absurd h (by decide)

lemma parseDigits_pyStrNat (n : Nat) :
    parseDigits (pyStrNat n).data = some n := by
  have hdata : (pyStrNat n).data = pyDigitsAux (n + 1) n [] := rfl
  rcases hcs : pyDigitsAux (n + 1) n [] with _ | ⟨c, cs⟩
  · exact absurd hcs (pyDigitsAux_ne_nil _ n [] (Or.inl (Nat.succ_ne_zero n)))
  · have hall : (c :: cs).all Char.isDigit = true := by
      rw [← hcs]; exact pyDigitsAux_all_digits _ n [] rfl
    have hval : parseNatFrom 0 (c :: cs) = n := by
      rw [← hcs, pyDigitsAux_parse _ n [] (Nat.lt_succ_self n)]; rfl
    rw [hdata, hcs]
    simp [parseDigits, hall, hval]

lemma pyStrNat_head_digit (n : Nat) :
    ∃ c cs, (pyStrNat n).data = c :: cs ∧ c.isDigit = true := by
  rcases hcs : pyDigitsAux (n + 1) n [] with _ | ⟨c, cs⟩
  · exact absurd hcs (pyDigitsAux_ne_nil _ n [] (Or.inl (Nat.succ_ne_zero n)))
  · refine ⟨c, cs, hcs, ?_⟩
    have hall : (c :: cs).all Char.isDigit = true := by
      rw [← hcs]; exact pyDigitsAux_all_digits _ n [] rfl
    simp only [List.all_cons, Bool.and_eq_true] at hall
    exact hall.1

/-- Round trip: parsing the decimal rendering of any integer recovers it. -/
theorem pyInt_pyStr (n : Int) : pyInt (pyStr n) = some n := by
  cases n with
  | ofNat m =>
    obtain ⟨c, cs, hdata, hdig⟩ := pyStrNat_head_digit m
    obtain ⟨hne1, hne2⟩ := isDigit_ne_sign hdig
    have hparse : parseDigits (c :: cs) = some m := by
      rw [← hdata]; exact parseDigits_pyStrNat m
    show pyInt (pyStrNat m) = some (Int.ofNat m)
    unfold pyInt
    rw [hdata]
    simp [hne1, hne2, hparse]
  | negSucc m =>
    have hdata : (("-" : String) ++ pyStrNat (m + 1)).data =
        '-' :: (pyStrNat (m + 1)).data := rfl
    show pyInt ("-" ++ pyStrNat (m + 1)) = some (Int.negSucc m)
    unfold pyInt
    rw [hdata]
    simp only [if_pos rfl, parseDigits_pyStrNat (m + 1), Option.map_some]
    congr 1

/-- Python `str.zfill(width)`: left-pad with `'0'` to `width` characters,
inserting the padding after a leading sign when one is present; a string
already at least `width` long is returned unchanged. -/
def zfill (s : String) (width : Nat) : String :=
  if width ≤ s.length then s
  else
    match s.data with
    | [] => String.mk (List.replicate width '0')
    | c :: cs =>
      if c = '-' ∨ c = '+' then
        String.mk (c :: (List.replicate (width - s.length) '0' ++ cs))
      else
        String.mk (List.replicate (width - s.length) '0' ++ (c :: cs))

/-- Function `format_balance` from the source: `divisor = 10 ** decimals`,
`whole = balance // divisor`, `fraction = balance % divisor`, rendered as
the f-string `whole`, dot, `str(fraction).zfill(decimals)`.  Python `//`
and `%` on integers are floor division and floor modulus, i.e.
`Int.fdiv` / `Int.fmod`.  (A negative `decimals` would make `10 **
decimals` a Python float, leaving the integer domain entirely, so
`decimals` is taken in `Nat`.) -/
def format_balance (balance : Int) (decimals : Nat) : String :=
  let divisor : Int := 10 ^ decimals
  let whole := balance.fdiv divisor
  let fraction := balance.fmod divisor
  pyStr whole ++ "." ++ zfill (pyStr fraction) decimals

/-- The spec's description of the fraction field: the remainder's digits
zero-padded on the left to exactly `d` characters. -/
def padZeros (d : Nat) (s : String) : String :=
  String.mk (List.replicate (d - s.length) '0' ++ s.data)

lemma zfill_eq_padZeros (s : String) (w : Nat) (c : Char) (cs : List Char)
    (hdata : s.data = c :: cs) (h1 : c ≠ '-') (h2 : c ≠ '+') :
    zfill s w = padZeros w s := by
  unfold zfill padZeros
  by_cases hw : w ≤ s.length
  · rw [if_pos hw]
    have hz : w - s.length = 0 := by omega
    rw [hz]
    simp only [List.replicate, List.nil_append]
  · rw [if_neg hw, hdata]
    have : ¬(c = '-' ∨ c = '+') := by
      rintro (rfl | rfl)
      · exact h1 rfl
      · exact h2 rfl
    simp only [this, if_false]

lemma pyStrNat_length_le (n d : Nat) (hn : n < 10 ^ d) (hd : 1 ≤ d) :
    (pyStrNat n).length ≤ d := by
  have := pyDigitsAux_length (n + 1) n d [] (Nat.lt_succ_self n) hn hd
  simpa [pyStrNat] using this

lemma padZeros_length (d : Nat) (s : String) (h : s.length ≤ d) :
    (padZeros d s).length = d := by
  unfold padZeros
  simp only [String.length_mk, List.length_append, List.length_replicate]
  have : s.data.length = s.length := rfl
  omega

/-- Structure of `format_balance` for positive `decimals`: whole part,
dot, and the remainder left-padded with zeros to exactly `decimals`
characters.  Holds for every integer balance because the floor remainder
by a positive divisor is non-negative. -/
lemma format_balance_structure (b : Int) (d : Nat) (hd : 0 < d) :
    format_balance b d =
        pyStr (b.fdiv (10 ^ d)) ++ "." ++ padZeros d (pyStr (b.fmod (10 ^ d))) ∧
      (padZeros d (pyStr (b.fmod (10 ^ d)))).length = d := by
  have hpos : (0 : Int) < 10 ^ d := by positivity
  have hnn : 0 ≤ b.fmod (10 ^ d) := Int.fmod_nonneg' b hpos
  have hlt : b.fmod (10 ^ d) < 10 ^ d := Int.fmod_lt_of_pos b hpos
  obtain ⟨k, hk⟩ : ∃ k : Nat, b.fmod (10 ^ d) = (k : Int) :=
    ⟨(b.fmod (10 ^ d)).toNat, (Int.toNat_of_nonneg hnn).symm⟩
  have hklt : k < 10 ^ d := by
    have h' : (k : Int) < (10 : Int) ^ d := hk ▸ hlt
    exact_mod_cast h'
  have hlen : (pyStr (b.fmod (10 ^ d))).length ≤ d := by
    rw [hk]
    exact pyStrNat_length_le k d hklt hd
  obtain ⟨c, cs, hdata, hdig⟩ := pyStrNat_head_digit k
  obtain ⟨hm, hp⟩ := isDigit_ne_sign hdig
  have hdata' : (pyStr (b.fmod (10 ^ d))).data = c :: cs := by rw [hk]; exact hdata
  constructor
  · show pyStr (b.fdiv (10 ^ d)) ++ "." ++ zfill (pyStr (b.fmod (10 ^ d))) d =
        pyStr (b.fdiv (10 ^ d)) ++ "." ++ padZeros d (pyStr (b.fmod (10 ^ d)))
    rw [zfill_eq_padZeros (pyStr (b.fmod (10 ^ d))) d c cs hdata' hm hp]
  · exact padZeros_length d _ hlen

/-- JSON values, as far as the client reads or writes them. -/
inductive JVal where
  | str : String → JVal
  | num : Int → JVal
  | arr : List JVal → JVal
  | obj : List (String × JVal) → JVal

/-- One HTTP request as the client builds it: method, full URL, optional
JSON body, the `timeout=` argument, and the identity of the
`requests.Session` it is sent through. -/
structure HttpRequest where
  method : String
  url : String
  body : Option JVal
  reqTimeout : Nat
  viaSession : Nat

/-- What a single request can come back with: a server response (status
code and JSON body), a `requests.Timeout`, or a connection-level
failure. -/
inductive HttpOutcome where
  | response : Nat → JVal → HttpOutcome
  | timeout : HttpOutcome
  | connError : HttpOutcome

/-- The exceptions a client call can surface: `requests.HTTPError` from
`raise_for_status` (status and body), `requests.Timeout`, a
connection-level error, `KeyError` from a missing JSON field, a JSON
value of the wrong shape, and `ValueError` from `int()`. -/
inductive ClientError where
  | httpError : Nat → JVal → ClientError
  | timeout : ClientError
  | connectionError : ClientError
  | keyError : String → ClientError
  | typeError : ClientError
  | valueError : ClientError

/-- The `AgentWallet` dataclass from the source. -/
structure AgentWallet where
  agent_id : String
  evm_address : String
  xrp_address : String
  derivation_index : Int
  created_at : String
  status : String

/-- The `AgentBalance` dataclass from the source. -/
structure AgentBalance where
  agent_id : String
  chain : String
  token : String
  balance : Int
  decimals : Int
  last_updated : String

/-- The `AgentChannel` dataclass from the source. -/
structure AgentChannel where
  id : String
  agent_id : String
  peer_id : String
  chain : String
  token : String
  balance : Int
  initial_amount : Int
  payments_count : Int
  status : String

/-- Constant `API_BASE_URL` from the source. -/
def API_BASE_URL : String := "http://localhost:3000/api/v1"

/-- Constant `API_TIMEOUT` from the source (seconds). -/
def API_TIMEOUT : Nat := 30

/-- The client's instance state: `self.base_url` and `self.session`
(the session is identified by an opaque token). -/
structure AgentWalletClient where
  base_url : String
  session : Nat

/-- Method `__init__`: stores the base URL and a freshly created
`requests.Session()` (identified by `fresh`). -/
def AgentWalletClient.init (base_url : String) (fresh : Nat) : AgentWalletClient :=
  ⟨base_url, fresh⟩

/-- First binding of key `k` in a JSON object's field list; `KeyError`
when the key is absent. -/
def jFind (k : String) : List (String × JVal) → Except ClientError JVal
  | [] => .error (.keyError k)
  | (k', x) :: rest => if k' = k then .ok x else jFind k rest

/-- Python dict lookup `v[k]` on a JSON object: `KeyError` when the key
is missing, `TypeError`-like failure when `v` is not an object. -/
def jGet (v : JVal) (k : String) : Except ClientError JVal :=
  match v with
  | .obj fields => jFind k fields
  | _ => .error .typeError

/-- Read a JSON string field into a `String`-typed slot. -/
def jGetStr (v : JVal) (k : String) : Except ClientError String :=
  (jGet v k).bind fun x =>
    match x with
    | .str s => .ok s
    | _ => .error .typeError

/-- Read a JSON number field into an `Int`-typed slot. -/
def jGetInt (v : JVal) (k : String) : Except ClientError Int :=
  (jGet v k).bind fun x =>
    match x with
    | .num n => .ok n
    | _ => .error .typeError

/-- Read a JSON array field. -/
def jGetArr (v : JVal) (k : String) : Except ClientError (List JVal) :=
  (jGet v k).bind fun x =>
    match x with
    | .arr xs => .ok xs
    | _ => .error .typeError

/-- Python `int(x)` applied to a JSON value: parses a decimal string,
passes an integer through, fails with `TypeError` on anything else. -/
def pyIntOf (v : JVal) : Except ClientError Int :=
  match v with
  | .str s =>
    match pyInt s with
    | some n => .ok n
    | none => .error .valueError
  | .num n => .ok n
  | _ => .error .typeError

/-- Call `response.raise_for_status()`: raises `requests.HTTPError` exactly
for status codes in [400, 600). -/
def raise_for_status (status : Nat) (body : JVal) : Except ClientError Unit :=
  if 400 ≤ status ∧ status < 600 then .error (.httpError status body) else .ok ()

/-- The outcome the transport oracle yields for the next request; an
exhausted oracle behaves as a connection-level failure. -/
def headOutcome : List HttpOutcome → HttpOutcome
  | [] => .connError
  | o :: _ => o

/-- What one client call returns: the call's result (value or raised
exception), the requests it issued, the rest of the transport oracle,
and the client's state after the call. -/
structure OpResult (α : Type) where
  result : Except ClientError α
  requests : List HttpRequest
  wireRest : List HttpOutcome
  client : AgentWalletClient

/-- The `AgentWallet(...)` construction in `create_wallet` / `get_wallet`:
each field is a dict access on the decoded JSON body. -/
def parseWallet (data : JVal) : Except ClientError AgentWallet := do
  let a ← jGetStr data "agentId"
  let e ← jGetStr data "evmAddress"
  let x ← jGetStr data "xrpAddress"
  let di ← jGetInt data "derivationIndex"
  let ca ← jGetStr data "createdAt"
  let st ← jGetStr data "status"
  return ⟨a, e, x, di, ca, st⟩

/-- The `AgentBalance(...)` construction in `get_all_balances`: note the
`balance` field goes through `int(...)`, the others are taken as-is. -/
def parseBalance (b : JVal) : Except ClientError AgentBalance := do
  let a ← jGetStr b "agentId"
  let ch ← jGetStr b "chain"
  let tk ← jGetStr b "token"
  let bal ← (jGet b "balance").bind pyIntOf
  let dec ← jGetInt b "decimals"
  let lu ← jGetStr b "lastUpdated"
  return ⟨a, ch, tk, bal, dec, lu⟩

/-- The `AgentChannel(...)` construction in `get_agent_channels`:
`balance` and `initialAmount` go through `int(...)`. -/
def parseChannel (ch : JVal) : Except ClientError AgentChannel := do
  let i ← jGetStr ch "id"
  let a ← jGetStr ch "agentId"
  let p ← jGetStr ch "peerId"
  let cn ← jGetStr ch "chain"
  let tk ← jGetStr ch "token"
  let bal ← (jGet ch "balance").bind pyIntOf
  let ia ← (jGet ch "initialAmount").bind pyIntOf
  let pc ← jGetInt ch "paymentsCount"
  let st ← jGetStr ch "status"
  return ⟨i, a, p, cn, tk, bal, ia, pc, st⟩

/-- Method `create_wallet`: one POST to `{base_url}/wallets` with body
`{agentId}`, then `raise_for_status` and decode the wallet. -/
def AgentWalletClient.create_wallet (c : AgentWalletClient) (agent_id : String)
    (wire : List HttpOutcome) : OpResult AgentWallet :=
  let req : HttpRequest :=
    ⟨"POST", c.base_url ++ "/wallets",
      some (.obj [("agentId", .str agent_id)]), API_TIMEOUT, c.session⟩
  let result : Except ClientError AgentWallet :=
    match headOutcome wire with
    | .timeout => .error .timeout
    | .connError => .error .connectionError
    | .response status data =>
      (raise_for_status status data).bind fun _ => parseWallet data
  ⟨result, [req], wire.drop 1, ⟨c.base_url, c.session⟩⟩

/-- Method `get_wallet`: one GET to `{base_url}/wallets/{agent_id}`; a 404
returns `None` before `raise_for_status` is consulted. -/
def AgentWalletClient.get_wallet (c : AgentWalletClient) (agent_id : String)
    (wire : List HttpOutcome) : OpResult (Option AgentWallet) :=
  let req : HttpRequest :=
    ⟨"GET", c.base_url ++ "/wallets/" ++ agent_id, none, API_TIMEOUT, c.session⟩
  let result : Except ClientError (Option AgentWallet) :=
    match headOutcome wire with
    | .timeout => .error .timeout
    | .connError => .error .connectionError
    | .response status data =>
      if status = 404 then .ok none
      else (raise_for_status status data).bind fun _ => (parseWallet data).map some
  ⟨result, [req], wire.drop 1, ⟨c.base_url, c.session⟩⟩

/-- Method `get_all_balances`: one GET to `{base_url}/wallets/{agent_id}/balances`,
`raise_for_status`, then decode each element of `data['balances']`. -/
def AgentWalletClient.get_all_balances (c : AgentWalletClient) (agent_id : String)
    (wire : List HttpOutcome) : OpResult (List AgentBalance) :=
  let req : HttpRequest :=
    ⟨"GET", c.base_url ++ "/wallets/" ++ agent_id ++ "/balances", none,
      API_TIMEOUT, c.session⟩
  let result : Except ClientError (List AgentBalance) :=
    match headOutcome wire with
    | .timeout => .error .timeout
    | .connError => .error .connectionError
    | .response status data =>
      (raise_for_status status data).bind fun _ =>
        (jGetArr data "balances").bind fun bs => bs.mapM parseBalance
  ⟨result, [req], wire.drop 1, ⟨c.base_url, c.session⟩⟩

/-- Method `get_balance`: one GET to
`{base_url}/wallets/{agent_id}/balances/{chain}/{token}`,
`raise_for_status`, then `int(data['balance'])`. -/
def AgentWalletClient.get_balance (c : AgentWalletClient)
    (agent_id chain token : String) (wire : List HttpOutcome) : OpResult Int :=
  let req : HttpRequest :=
    ⟨"GET", c.base_url ++ "/wallets/" ++ agent_id ++ "/balances/" ++ chain
        ++ "/" ++ token, none, API_TIMEOUT, c.session⟩
  let result : Except ClientError Int :=
    match headOutcome wire with
    | .timeout => .error .timeout
    | .connError => .error .connectionError
    | .response status data =>
      (raise_for_status status data).bind fun _ => (jGet data "balance").bind pyIntOf
  ⟨result, [req], wire.drop 1, ⟨c.base_url, c.session⟩⟩

/-- Method `open_channel`: one POST to `{base_url}/channels` whose body carries
`amount` as `str(amount)` (BigInt as string), `raise_for_status`, then
`data['channelId']`. -/
def AgentWalletClient.open_channel (c : AgentWalletClient)
    (agent_id peer_id chain token : String) (amount : Int)
    (wire : List HttpOutcome) : OpResult String :=
  let req : HttpRequest :=
    ⟨"POST", c.base_url ++ "/channels",
      some (.obj [("agentId", .str agent_id), ("peerId", .str peer_id),
        ("chain", .str chain), ("token", .str token),
        ("amount", .str (pyStr amount))]), API_TIMEOUT, c.session⟩
  let result : Except ClientError String :=
    match headOutcome wire with
    | .timeout => .error .timeout
    | .connError => .error .connectionError
    | .response status data =>
      (raise_for_status status data).bind fun _ => jGetStr data "channelId"
  ⟨result, [req], wire.drop 1, ⟨c.base_url, c.session⟩⟩

/-- Method `send_payment`: one POST to `{base_url}/channels/{channel_id}/payments`
whose body carries `amount` as `str(amount)`; only `raise_for_status`
follows (the body is not decoded). -/
def AgentWalletClient.send_payment (c : AgentWalletClient)
    (agent_id channel_id : String) (amount : Int)
    (wire : List HttpOutcome) : OpResult Unit :=
  let req : HttpRequest :=
    ⟨"POST", c.base_url ++ "/channels/" ++ channel_id ++ "/payments",
      some (.obj [("agentId", .str agent_id), ("amount", .str (pyStr amount))]),
      API_TIMEOUT, c.session⟩
  let result : Except ClientError Unit :=
    match headOutcome wire with
    | .timeout => .error .timeout
    | .connError => .error .connectionError
    | .response status data => raise_for_status status data
  ⟨result, [req], wire.drop 1, ⟨c.base_url, c.session⟩⟩

/-- Method `close_channel`: one DELETE to `{base_url}/channels/{channel_id}`
with body `{agentId}`; only `raise_for_status` follows. -/
def AgentWalletClient.close_channel (c : AgentWalletClient)
    (agent_id channel_id : String) (wire : List HttpOutcome) : OpResult Unit :=
  let req : HttpRequest :=
    ⟨"DELETE", c.base_url ++ "/channels/" ++ channel_id,
      some (.obj [("agentId", .str agent_id)]), API_TIMEOUT, c.session⟩
  let result : Except ClientError Unit :=
    match headOutcome wire with
    | .timeout => .error .timeout
    | .connError => .error .connectionError
    | .response status data => raise_for_status status data
  ⟨result, [req], wire.drop 1, ⟨c.base_url, c.session⟩⟩

/-- Method `get_agent_channels`: one GET to
`{base_url}/wallets/{agent_id}/channels`, `raise_for_status`, then decode
each element of `data['channels']`. -/
def AgentWalletClient.get_agent_channels (c : AgentWalletClient)
    (agent_id : String) (wire : List HttpOutcome) : OpResult (List AgentChannel) :=
  let req : HttpRequest :=
    ⟨"GET", c.base_url ++ "/wallets/" ++ agent_id ++ "/channels", none,
      API_TIMEOUT, c.session⟩
  let result : Except ClientError (List AgentChannel) :=
    match headOutcome wire with
    | .timeout => .error .timeout
    | .connError => .error .connectionError
    | .response status data =>
      (raise_for_status status data).bind fun _ =>
        (jGetArr data "channels").bind fun cs => cs.mapM parseChannel
  ⟨result, [req], wire.drop 1, ⟨c.base_url, c.session⟩⟩

/-- A concrete client instance used by witnesses: default base URL,
session token 0. -/
def demoClient : AgentWalletClient := AgentWalletClient.init API_BASE_URL 0

/-- The client's interface surface: one constructor per `def` of the
`AgentWalletClient` class in the source (`init` is `__init__`). -/
inductive ClientOp where
  | init
  | create_wallet
  | get_wallet
  | get_all_balances
  | get_balance
  | open_channel
  | send_payment
  | close_channel
  | get_agent_channels
deriving DecidableEq

/-- How many `requests.Session()` objects each method's body creates:
`__init__` creates exactly one (`self.session = requests.Session()`,
line 67); no other method creates any. -/
def sessionsCreated : ClientOp → Nat
  | .init => 1
  | _ => 0

/-- How many times each method's body closes or releases the session.
The source contains no `close()` call, no `with` block over the session
and no context-manager protocol anywhere, so every count is zero. -/
def sessionsClosed : ClientOp → Nat
  | _ => 0

/-- Whether the method sends its HTTP traffic through `self.session`
(every request in the source is a `self.session.<verb>(...)` call). -/
def usesInstanceSession : ClientOp → Bool
  | .init => false
  | _ => true

/-- The full interface list, in source order. -/
def clientOps : List ClientOp :=
  [.init, .create_wallet, .get_wallet, .get_all_balances, .get_balance,
   .open_channel, .send_payment, .close_channel, .get_agent_channels]

/-- Claim C2: for every non-negative integer balance `b` and positive
`decimals` `d`, `format_balance b d` is the decimal rendering of the
quotient `b // 10^d`, a dot, and the remainder `b % 10^d` zero-padded on
the left to exactly `d` digits; in particular
`format_balance 1000000000 6 = "1000.000000"` and
`format_balance 10000000 6 = "10.000000"`. -/
theorem format_balance_spec_C2 (b : Int) (d : Nat) (_hb : 0 ≤ b) (hd : 0 < d) :
    format_balance b d =
        pyStr (b.fdiv (10 ^ d)) ++ "." ++ padZeros d (pyStr (b.fmod (10 ^ d))) ∧
      (padZeros d (pyStr (b.fmod (10 ^ d)))).length = d ∧
      format_balance 1000000000 6 = "1000.000000" ∧
      format_balance 10000000 6 = "10.000000" := by
  obtain ⟨h1, h2⟩ := format_balance_structure b d hd
  exact ⟨h1, h2, by decide, by decide⟩

theorem format_balance_spec_C2_witness :
    format_balance 1000000000 6 = "1000.000000" :=
  (format_balance_spec_C2 1000000000 6 (by decide) (by decide)).2.2.1

/-- Claim C9: for every negative balance `b` and positive `decimals`
`d`, `format_balance` uses floor division and floor modulo: the whole
part is the floored quotient and the fraction is the non-negative
remainder of the floor decomposition, so
`format_balance (-1) 6 = "-1.999999"`, not `"-0.000001"`. -/
theorem format_balance_negative_C9 (b : Int) (d : Nat) (_hb : b < 0) (hd : 0 < d) :
    format_balance b d =
        pyStr (b.fdiv (10 ^ d)) ++ "." ++ padZeros d (pyStr (b.fmod (10 ^ d))) ∧
      0 ≤ b.fmod (10 ^ d) ∧ b.fmod (10 ^ d) < 10 ^ d ∧
      10 ^ d * b.fdiv (10 ^ d) + b.fmod (10 ^ d) = b ∧
      format_balance (-1) 6 = "-1.999999" ∧
      format_balance (-1) 6 ≠ "-0.000001" := by
  have hpos : (0 : Int) < 10 ^ d := by positivity
  obtain ⟨h1, _⟩ := format_balance_structure b d hd
  exact ⟨h1, Int.fmod_nonneg' b hpos, Int.fmod_lt_of_pos b hpos,
    Int.fdiv_add_fmod b (10 ^ d), by decide, by decide⟩

theorem format_balance_negative_C9_witness :
    format_balance (-1) 6 = "-1.999999" :=
  (format_balance_negative_C9 (-1) 6 (by decide) (by decide)).2.2.2.2.1

/-- Claim C10 fails as stated: with zero decimals the fraction field is
`str(0).zfill(0) = "0"` (zfill never truncates), so `format_balance 5 0`
is `"5.0"`, not the claimed `"5."`. -/
theorem format_balance_zero_decimals_counterexample_C10 :
    format_balance 5 0 = "5.0" ∧ format_balance 5 0 ≠ "5." :=
  ⟨by decide, by decide⟩

/-- Claim C10 amended: for every non-negative balance `b`,
`format_balance b 0` is the decimal representation of `b` followed by
`".0"` — a dot plus the single unpadded zero-fraction digit, not a bare
trailing dot. -/
theorem format_balance_zero_decimals_C10 (b : Int) (_hb : 0 ≤ b) :
    format_balance b 0 = pyStr b ++ ".0" := by
  show pyStr (b.fdiv (10 ^ 0)) ++ "." ++ zfill (pyStr (b.fmod (10 ^ 0))) 0 =
    pyStr b ++ ".0"
  rw [pow_zero, Int.fdiv_one, Int.fmod_one, String.append_assoc]
  congr 1

theorem format_balance_zero_decimals_C10_witness :
    format_balance 5 0 = pyStr 5 ++ ".0" :=
  format_balance_zero_decimals_C10 5 (by decide)

lemma pyIntOf_pyStr (n : Int) : pyIntOf (.str (pyStr n)) = .ok n := by
  simp [pyIntOf, pyInt_pyStr]

lemma except_ok_bind {α β : Type} (a : α) (f : α → Except ClientError β) :
    (Except.ok a : Except ClientError α).bind f = f a := rfl

lemma except_ok_map {α β : Type} (a : α) (f : α → β) :
    f <$> (Except.ok a : Except ClientError α) = .ok (f a) := rfl

lemma except_ok_bindM {α β : Type} (a : α) (f : α → Except ClientError β) :
    (Except.ok a : Except ClientError α) >>= f = f a := rfl

/-- Claim C1: integer amounts cross the client boundary as decimal
strings with full precision: `open_channel` and `send_payment` place
`str(amount)` in the request body, `get_balance`, `get_all_balances` and
`get_agent_channels` parse balance fields with `int(...)`, and
parse ∘ serialize is the identity on every integer, so no precision is
lost for arbitrarily large amounts. -/
theorem amount_decimal_string_roundtrip_C1 :
    (∀ (c : AgentWalletClient) (a p ch tk : String) (amount : Int)
        (wire : List HttpOutcome),
      (c.open_channel a p ch tk amount wire).requests =
        [⟨"POST", c.base_url ++ "/channels",
            some (.obj [("agentId", .str a), ("peerId", .str p),
              ("chain", .str ch), ("token", .str tk),
              ("amount", .str (pyStr amount))]), API_TIMEOUT, c.session⟩]) ∧
    (∀ (c : AgentWalletClient) (a cid : String) (amount : Int)
        (wire : List HttpOutcome),
      (c.send_payment a cid amount wire).requests =
        [⟨"POST", c.base_url ++ "/channels/" ++ cid ++ "/payments",
            some (.obj [("agentId", .str a), ("amount", .str (pyStr amount))]),
            API_TIMEOUT, c.session⟩]) ∧
    (∀ n : Int, pyInt (pyStr n) = some n) ∧
    (∀ n : Int, pyIntOf (.str (pyStr n)) = .ok n) ∧
    (∀ (c : AgentWalletClient) (a ch tk : String) (n : Int)
        (rest : List HttpOutcome),
      (c.get_balance a ch tk
          (HttpOutcome.response 200 (.obj [("balance", .str (pyStr n))])
            :: rest)).result = .ok n) ∧
    (∀ n dec : Int,
      parseBalance (.obj [("agentId", .str "a"), ("chain", .str "evm"),
          ("token", .str "USDC"), ("balance", .str (pyStr n)),
          ("decimals", .num dec), ("lastUpdated", .str "t")])
        = .ok ⟨"a", "evm", "USDC", n, dec, "t"⟩) ∧
    (∀ n m : Int,
      parseChannel (.obj [("id", .str "c1"), ("agentId", .str "a"),
          ("peerId", .str "p"), ("chain", .str "evm"), ("token", .str "USDC"),
          ("balance", .str (pyStr n)), ("initialAmount", .str (pyStr m)),
          ("paymentsCount", .num 3), ("status", .str "open")])
        = .ok ⟨"c1", "a", "p", "evm", "USDC", n, m, 3, "open"⟩) := by
  refine ⟨fun c a p ch tk amount wire => rfl, fun c a cid amount wire => rfl,
    pyInt_pyStr, pyIntOf_pyStr, ?_, ?_, ?_⟩
  · intro c a ch tk n rest
    simp [AgentWalletClient.get_balance, headOutcome, raise_for_status, jGet,
      jFind, except_ok_bind, pyIntOf_pyStr]
  · intro n dec
    simp [parseBalance, jGetStr, jGetInt, jGet, jFind, except_ok_bind,
      except_ok_map, except_ok_bindM, pyIntOf_pyStr]
  · intro n m
    simp [parseChannel, jGetStr, jGetInt, jGet, jFind, except_ok_bind,
      except_ok_map, except_ok_bindM, pyIntOf_pyStr]

lemma raise_for_status_failure {α : Type} (status : Nat) (body : JVal)
    (f : Unit → Except ClientError α) (h1 : 400 ≤ status) (h2 : status < 600) :
    (raise_for_status status body).bind f = .error (.httpError status body) := by
  unfold raise_for_status
  rw [if_pos ⟨h1, h2⟩]
  rfl

lemma raise_for_status_failure' (status : Nat) (body : JVal)
    (h1 : 400 ≤ status) (h2 : status < 600) :
    raise_for_status status body = .error (.httpError status body) := by
  unfold raise_for_status
  rw [if_pos ⟨h1, h2⟩]

lemma create_wallet_failure_aux (c : AgentWalletClient) (a : String)
    (status : Nat) (body : JVal) (rest : List HttpOutcome)
    (h1 : 400 ≤ status) (h2 : status < 600) :
    (c.create_wallet a (HttpOutcome.response status body :: rest)).result =
      .error (.httpError status body) :=
  raise_for_status_failure status body (fun _ => parseWallet body) h1 h2

lemma get_all_balances_failure_aux (c : AgentWalletClient) (a : String)
    (status : Nat) (body : JVal) (rest : List HttpOutcome)
    (h1 : 400 ≤ status) (h2 : status < 600) :
    (c.get_all_balances a (HttpOutcome.response status body :: rest)).result =
      .error (.httpError status body) :=
  raise_for_status_failure status body
    (fun _ => (jGetArr body "balances").bind fun bs => bs.mapM parseBalance) h1 h2

lemma get_balance_failure_aux (c : AgentWalletClient) (a ch tk : String)
    (status : Nat) (body : JVal) (rest : List HttpOutcome)
    (h1 : 400 ≤ status) (h2 : status < 600) :
    (c.get_balance a ch tk (HttpOutcome.response status body :: rest)).result =
      .error (.httpError status body) :=
  raise_for_status_failure status body
    (fun _ => (jGet body "balance").bind pyIntOf) h1 h2

lemma open_channel_failure_aux (c : AgentWalletClient) (a p ch tk : String)
    (amount : Int) (status : Nat) (body : JVal) (rest : List HttpOutcome)
    (h1 : 400 ≤ status) (h2 : status < 600) :
    (c.open_channel a p ch tk amount
        (HttpOutcome.response status body :: rest)).result =
      .error (.httpError status body) :=
  raise_for_status_failure status body (fun _ => jGetStr body "channelId") h1 h2

lemma get_agent_channels_failure_aux (c : AgentWalletClient) (a : String)
    (status : Nat) (body : JVal) (rest : List HttpOutcome)
    (h1 : 400 ≤ status) (h2 : status < 600) :
    (c.get_agent_channels a (HttpOutcome.response status body :: rest)).result =
      .error (.httpError status body) :=
  raise_for_status_failure status body
    (fun _ => (jGetArr body "channels").bind fun cs => cs.mapM parseChannel) h1 h2

lemma get_wallet_failure_aux (c : AgentWalletClient) (a : String) (status : Nat)
    (body : JVal) (rest : List HttpOutcome) (h1 : 400 ≤ status)
    (h2 : status < 600) (h3 : status ≠ 404) :
    (c.get_wallet a (HttpOutcome.response status body :: rest)).result =
      .error (.httpError status body) := by
  show (if status = 404 then Except.ok none
      else (raise_for_status status body).bind fun _ => (parseWallet body).map some)
    = Except.error (ClientError.httpError status body)
  rw [if_neg h3]
  exact raise_for_status_failure status body _ h1 h2

/-- Claim C3: `get_wallet` turns a 404 response into the value `None`
(an explicit absence marker), not an exception, and propagates every
non-404 failure status (4xx/5xx) as an `HTTPError`. -/
theorem get_wallet_404_C3 :
    (∀ (c : AgentWalletClient) (a : String) (body : JVal)
        (rest : List HttpOutcome),
      (c.get_wallet a (HttpOutcome.response 404 body :: rest)).result =
        .ok none) ∧
    (∀ (c : AgentWalletClient) (a : String) (status : Nat) (body : JVal)
        (rest : List HttpOutcome), 400 ≤ status → status < 600 → status ≠ 404 →
      (c.get_wallet a (HttpOutcome.response status body :: rest)).result =
        .error (.httpError status body)) := by
  constructor
  · intro c a body rest
    rfl
  · intro c a status body rest h1 h2 h3
    exact get_wallet_failure_aux c a status body rest h1 h2 h3

theorem get_wallet_404_C3_witness :
    (demoClient.get_wallet "agent-001"
        [HttpOutcome.response 404 (JVal.obj [])]).result = .ok none ∧
    (demoClient.get_wallet "agent-001"
        [HttpOutcome.response 500 (JVal.obj [])]).result =
      .error (.httpError 500 (JVal.obj [])) :=
  ⟨get_wallet_404_C3.1 demoClient "agent-001" (JVal.obj []) [],
   get_wallet_404_C3.2 demoClient "agent-001" 500 (JVal.obj []) []
     (by decide) (by decide) (by decide)⟩

/-- Claim C4 fails on the code: `get_balance` (and likewise
`get_all_balances` and `get_agent_channels`) has no 404 branch — a 404
reaches `raise_for_status` and is raised as an `HTTPError` exception,
not returned as a value. -/
theorem reads_404_counterexample_C4 :
    (demoClient.get_balance "agent-001" "evm" "USDC"
        [HttpOutcome.response 404 (JVal.obj [])]).result =
      .error (.httpError 404 (JVal.obj [])) := rfl

/-- Claim C4 amended: of the client's four read operations only
`get_wallet` returns the 404 absence as a value (`None`); `get_balance`,
`get_all_balances` and `get_agent_channels` raise `HTTPError` on a 404
exactly as on any other failure status. -/
theorem reads_404_amended_C4 :
    (∀ (c : AgentWalletClient) (a : String) (body : JVal)
        (rest : List HttpOutcome),
      (c.get_wallet a (HttpOutcome.response 404 body :: rest)).result =
        .ok none) ∧
    (∀ (c : AgentWalletClient) (a ch tk : String) (body : JVal)
        (rest : List HttpOutcome),
      (c.get_balance a ch tk (HttpOutcome.response 404 body :: rest)).result =
        .error (.httpError 404 body)) ∧
    (∀ (c : AgentWalletClient) (a : String) (body : JVal)
        (rest : List HttpOutcome),
      (c.get_all_balances a (HttpOutcome.response 404 body :: rest)).result =
        .error (.httpError 404 body)) ∧
    (∀ (c : AgentWalletClient) (a : String) (body : JVal)
        (rest : List HttpOutcome),
      (c.get_agent_channels a (HttpOutcome.response 404 body :: rest)).result =
        .error (.httpError 404 body)) := by
  refine ⟨fun c a body rest => rfl, fun c a ch tk body rest => ?_,
    fun c a body rest => ?_, fun c a body rest => ?_⟩
  · exact get_balance_failure_aux c a ch tk 404 body rest (by decide) (by decide)
  · exact get_all_balances_failure_aux c a 404 body rest (by decide) (by decide)
  · exact get_agent_channels_failure_aux c a 404 body rest (by decide) (by decide)

/-- One call issues exactly one request, consumes exactly one transport
outcome (hence performs no retry), returns the client state unchanged,
and surfaces transport-level failures (timeout, connection error) as
errors. -/
def oneRequestNoRetry {α : Type} (c : AgentWalletClient)
    (op : List HttpOutcome → OpResult α) : Prop :=
  ∀ wire : List HttpOutcome,
    (op wire).requests.length = 1 ∧
    (op wire).client = c ∧
    (op wire).wireRest = wire.drop 1 ∧
    (op (HttpOutcome.timeout :: wire)).result = .error .timeout ∧
    (op (HttpOutcome.connError :: wire)).result = .error .connectionError

/-- Every server-reported failure status (4xx/5xx; 404 has its own
absence-vs-error story, see C3/C4) surfaces to the caller as an
`HTTPError` value. -/
def surfacesHttpFailures {α : Type} (op : List HttpOutcome → OpResult α) : Prop :=
  ∀ (status : Nat) (body : JVal) (rest : List HttpOutcome),
    400 ≤ status → status < 600 → status ≠ 404 →
    (op (HttpOutcome.response status body :: rest)).result =
      .error (.httpError status body)

/-- Claim C5: every one of the eight client operations issues exactly
one HTTP request per call, performs no silent retry, surfaces every
failure outcome to the caller, and leaves the client state (`base_url`,
`session`) unchanged. -/
theorem one_request_per_call_C5 :
    (∀ (c : AgentWalletClient) (a : String),
      oneRequestNoRetry c (c.create_wallet a) ∧
        surfacesHttpFailures (c.create_wallet a)) ∧
    (∀ (c : AgentWalletClient) (a : String),
      oneRequestNoRetry c (c.get_wallet a) ∧
        surfacesHttpFailures (c.get_wallet a)) ∧
    (∀ (c : AgentWalletClient) (a : String),
      oneRequestNoRetry c (c.get_all_balances a) ∧
        surfacesHttpFailures (c.get_all_balances a)) ∧
    (∀ (c : AgentWalletClient) (a ch tk : String),
      oneRequestNoRetry c (c.get_balance a ch tk) ∧
        surfacesHttpFailures (c.get_balance a ch tk)) ∧
    (∀ (c : AgentWalletClient) (a p ch tk : String) (amount : Int),
      oneRequestNoRetry c (c.open_channel a p ch tk amount) ∧
        surfacesHttpFailures (c.open_channel a p ch tk amount)) ∧
    (∀ (c : AgentWalletClient) (a cid : String) (amount : Int),
      oneRequestNoRetry c (c.send_payment a cid amount) ∧
        surfacesHttpFailures (c.send_payment a cid amount)) ∧
    (∀ (c : AgentWalletClient) (a cid : String),
      oneRequestNoRetry c (c.close_channel a cid) ∧
        surfacesHttpFailures (c.close_channel a cid)) ∧
    (∀ (c : AgentWalletClient) (a : String),
      oneRequestNoRetry c (c.get_agent_channels a) ∧
        surfacesHttpFailures (c.get_agent_channels a)) := by
  refine ⟨fun c a => ⟨fun wire => ⟨rfl, rfl, rfl, rfl, rfl⟩, ?_⟩,
    fun c a => ⟨fun wire => ⟨rfl, rfl, rfl, rfl, rfl⟩, ?_⟩,
    fun c a => ⟨fun wire => ⟨rfl, rfl, rfl, rfl, rfl⟩, ?_⟩,
    fun c a ch tk => ⟨fun wire => ⟨rfl, rfl, rfl, rfl, rfl⟩, ?_⟩,
    fun c a p ch tk amount => ⟨fun wire => ⟨rfl, rfl, rfl, rfl, rfl⟩, ?_⟩,
    fun c a cid amount => ⟨fun wire => ⟨rfl, rfl, rfl, rfl, rfl⟩, ?_⟩,
    fun c a cid => ⟨fun wire => ⟨rfl, rfl, rfl, rfl, rfl⟩, ?_⟩,
    fun c a => ⟨fun wire => ⟨rfl, rfl, rfl, rfl, rfl⟩, ?_⟩⟩
  · exact fun status body rest h1 h2 _ =>
      create_wallet_failure_aux c a status body rest h1 h2
  · exact fun status body rest h1 h2 h3 =>
      get_wallet_failure_aux c a status body rest h1 h2 h3
  · exact fun status body rest h1 h2 _ =>
      get_all_balances_failure_aux c a status body rest h1 h2
  · exact fun status body rest h1 h2 _ =>
      get_balance_failure_aux c a ch tk status body rest h1 h2
  · exact fun status body rest h1 h2 _ =>
      open_channel_failure_aux c a p ch tk amount status body rest h1 h2
  · exact fun status body rest h1 h2 _ =>
      raise_for_status_failure' status body h1 h2
  · exact fun status body rest h1 h2 _ =>
      raise_for_status_failure' status body h1 h2
  · exact fun status body rest h1 h2 _ =>
      get_agent_channels_failure_aux c a status body rest h1 h2

theorem one_request_per_call_C5_witness :
    (demoClient.get_balance "agent-001" "evm" "USDC"
        [HttpOutcome.response 500 (JVal.obj [])]).requests.length = 1 ∧
    (demoClient.get_balance "agent-001" "evm" "USDC"
        [HttpOutcome.response 500 (JVal.obj [])]).result =
      .error (.httpError 500 (JVal.obj [])) :=
  ⟨((one_request_per_call_C5.2.2.2.1 demoClient "agent-001" "evm" "USDC").1
      [HttpOutcome.response 500 (JVal.obj [])]).1,
   (one_request_per_call_C5.2.2.2.1 demoClient "agent-001" "evm" "USDC").2
      500 (JVal.obj []) [] (by decide) (by decide) (by decide)⟩

/-- Every request the call issues carries the `API_TIMEOUT` bound, and a
transport timeout surfaces as the dedicated timeout error. -/
def boundedByApiTimeout {α : Type} (op : List HttpOutcome → OpResult α) : Prop :=
  ∀ wire : List HttpOutcome,
    ((op wire).requests.all fun r => r.reqTimeout == API_TIMEOUT) = true ∧
    (op (HttpOutcome.timeout :: wire)).result = .error .timeout

/-- Claim C6: the single constant bound `API_TIMEOUT` is applied
uniformly by all eight operations, and exceeding it produces the
distinct `ClientError.timeout` outcome, which is never equal to a
server-reported `httpError`. -/
theorem uniform_timeout_C6 :
    (∀ (c : AgentWalletClient) (a : String),
      boundedByApiTimeout (c.create_wallet a)) ∧
    (∀ (c : AgentWalletClient) (a : String),
      boundedByApiTimeout (c.get_wallet a)) ∧
    (∀ (c : AgentWalletClient) (a : String),
      boundedByApiTimeout (c.get_all_balances a)) ∧
    (∀ (c : AgentWalletClient) (a ch tk : String),
      boundedByApiTimeout (c.get_balance a ch tk)) ∧
    (∀ (c : AgentWalletClient) (a p ch tk : String) (amount : Int),
      boundedByApiTimeout (c.open_channel a p ch tk amount)) ∧
    (∀ (c : AgentWalletClient) (a cid : String) (amount : Int),
      boundedByApiTimeout (c.send_payment a cid amount)) ∧
    (∀ (c : AgentWalletClient) (a cid : String),
      boundedByApiTimeout (c.close_channel a cid)) ∧
    (∀ (c : AgentWalletClient) (a : String),
      boundedByApiTimeout (c.get_agent_channels a)) ∧
    (∀ (status : Nat) (body : JVal),
      (ClientError.timeout : ClientError) ≠ ClientError.httpError status body) := by
  refine ⟨fun c a wire => ⟨rfl, rfl⟩, fun c a wire => ⟨rfl, rfl⟩,
    fun c a wire => ⟨rfl, rfl⟩, fun c a ch tk wire => ⟨rfl, rfl⟩,
    fun c a p ch tk amount wire => ⟨rfl, rfl⟩,
    fun c a cid amount wire => ⟨rfl, rfl⟩, fun c a cid wire => ⟨rfl, rfl⟩,
    fun c a wire => ⟨rfl, rfl⟩, ?_⟩
  intro status body h
  simp at h

theorem uniform_timeout_C6_witness :
    ((demoClient.create_wallet "agent-001" []).requests.all
        fun r => r.reqTimeout == API_TIMEOUT) = true ∧
    (demoClient.create_wallet "agent-001" [HttpOutcome.timeout]).result =
      .error .timeout :=
  ⟨(uniform_timeout_C6.1 demoClient "agent-001" []).1,
   (uniform_timeout_C6.1 demoClient "agent-001" []).2⟩

/-- Claim C7's release clause fails on the code: no operation of the
client ever closes or releases the session — the source contains no
`close()` call and no context-manager scoping, so there is no release on
any exit path. -/
theorem session_release_counterexample_C7 :
    (clientOps.any fun op => sessionsClosed op != 0) = false := by decide

/-- Claim C7 amended: the session is acquired exactly once per client
instance (only `__init__` creates one) and reused across all calls
(every operation sends its single request through `self.session` and
creates no new session), but the client never releases it: there is no
close and no scoped acquisition; release is left to interpreter
finalization. -/
theorem session_lifecycle_C7 :
    sessionsCreated ClientOp.init = 1 ∧
    (∀ op : ClientOp, op ≠ ClientOp.init → sessionsCreated op = 0) ∧
    (∀ op : ClientOp, sessionsClosed op = 0) ∧
    (∀ op : ClientOp, op ≠ ClientOp.init → usesInstanceSession op = true) ∧
    (∀ (base : String) (fresh : Nat),
      (AgentWalletClient.init base fresh).session = fresh) ∧
    (∀ (c : AgentWalletClient) (a : String) (wire : List HttpOutcome),
      ((c.create_wallet a wire).requests.all
          fun r => r.viaSession == c.session) = true ∧
      ((c.get_wallet a wire).requests.all
          fun r => r.viaSession == c.session) = true ∧
      ((c.get_all_balances a wire).requests.all
          fun r => r.viaSession == c.session) = true ∧
      ((c.get_agent_channels a wire).requests.all
          fun r => r.viaSession == c.session) = true) ∧
    (∀ (c : AgentWalletClient) (a ch tk : String) (wire : List HttpOutcome),
      ((c.get_balance a ch tk wire).requests.all
          fun r => r.viaSession == c.session) = true) ∧
    (∀ (c : AgentWalletClient) (a p ch tk : String) (amount : Int)
        (wire : List HttpOutcome),
      ((c.open_channel a p ch tk amount wire).requests.all
          fun r => r.viaSession == c.session) = true) ∧
    (∀ (c : AgentWalletClient) (a cid : String) (amount : Int)
        (wire : List HttpOutcome),
      ((c.send_payment a cid amount wire).requests.all
          fun r => r.viaSession == c.session) = true) ∧
    (∀ (c : AgentWalletClient) (a cid : String) (wire : List HttpOutcome),
      ((c.close_channel a cid wire).requests.all
          fun r => r.viaSession == c.session) = true) := by
  refine ⟨rfl, ?_, fun op => rfl, ?_, fun base fresh => rfl, ?_, ?_, ?_, ?_, ?_⟩
  · intro op h
    cases op
    · exact absurd rfl h
    all_goals rfl
  · intro op h
    cases op
    · exact absurd rfl h
    all_goals rfl
  · intro c a wire
    refine ⟨?_, ?_, ?_, ?_⟩ <;>
      simp [AgentWalletClient.create_wallet, AgentWalletClient.get_wallet,
        AgentWalletClient.get_all_balances, AgentWalletClient.get_agent_channels]
  · intro c a ch tk wire
    simp [AgentWalletClient.get_balance]
  · intro c a p ch tk amount wire
    simp [AgentWalletClient.open_channel]
  · intro c a cid amount wire
    simp [AgentWalletClient.send_payment]
  · intro c a cid wire
    simp [AgentWalletClient.close_channel]

theorem session_lifecycle_C7_witness :
    sessionsCreated ClientOp.get_wallet = 0 ∧
      usesInstanceSession ClientOp.get_wallet = true :=
  ⟨session_lifecycle_C7.2.1 ClientOp.get_wallet (by decide),
   session_lifecycle_C7.2.2.2.1 ClientOp.get_wallet (by decide)⟩

/-- Claim C8: `open_channel` performs no client-side validation of its
amount: for every integer, negative ones included, the single request is
always issued with `str(amount)` in the body and no local error is
raised, and a success response yields the channel id — so rejection of
malformed or negative amounts can only come from the server's
response. -/
theorem open_channel_no_validation_C8 (c : AgentWalletClient)
    (a p ch tk : String) (amount : Int) (cid : String)
    (wire rest : List HttpOutcome) :
    (c.open_channel a p ch tk amount wire).requests =
        [⟨"POST", c.base_url ++ "/channels",
            some (.obj [("agentId", .str a), ("peerId", .str p),
              ("chain", .str ch), ("token", .str tk),
              ("amount", .str (pyStr amount))]), API_TIMEOUT, c.session⟩] ∧
      (c.open_channel a p ch tk amount
          (HttpOutcome.response 201 (.obj [("channelId", .str cid)])
            :: rest)).result = .ok cid := by
  refine ⟨rfl, ?_⟩
  simp [AgentWalletClient.open_channel, headOutcome, raise_for_status,
    jGetStr, jGet, jFind, except_ok_bind]
